import Mathlib

/-!
# Verification of the PlaneProject weight-closure sizing core

Shallow embedding, over the reals, of the conceptual-design takeoff-weight
solver and the two-layer standard-atmosphere model of the PlaneProject
repository:

* `src/Plane_Design_Package/constants.py` — physical constants (namespace
  `Constants` below).  The identical constants module of `PyPlanePackage`
  is not in the source tree; its values are modelled from the spec (§4.1),
  which lists exactly the values of `Plane_Design_Package/constants.py`.
* `src/PyPlanePackage/atmosphere/atmosphere.py` — `compute_temperature`,
  `compute_pressure`, `compute_density`, `compute_sound_speed` (the
  `Plane_Design_Package` copy has the same formulas).
* `src/PyPlanePackage/weight/weight.py` — the `Weight` class:
  `structure_factor`, `finesse`, `fclimb`, `floiter`, `fcruise`, `vitesse`,
  `fpoids`, and the post-`fsolve` part of `iterate_take_off_weight`.
* `src/PyPlanePackage/plane/plane_mass.py` and
  `src/Plane_Design_Package/Plane/plane_mass.py` — the module-level demo
  mission (same structure-factor table as `weight.py`).

Python floats are embedded as real numbers.  Python's `x ** y` on floats is
embedded as `Real.rpow`; for a positive base the two agree, and for a
negative base `Real.rpow x y` is the real part of the complex power that
Python returns.  An evaluation with no well-defined real result is
embedded as `Option.none`: either a raised exception (`ValueError` on an
unknown aircraft type; `ZeroDivisionError` on `a / 0.0` or `0.0 ** c`,
`c < 0`, over plain floats) or a `nan`/`inf` value under numpy ndarray
arithmetic (`0/0 → nan`, `x/0 → inf`, `0.0 ** c → inf` with
`RuntimeWarning`s), which is what happens inside `fsolve`, since `fsolve`
calls the residual on ndarrays.

`scipy.optimize.fsolve` is external library code (not in the repository);
it is modelled from its documented contract, see `FsolveCall.Returns`.
-/

noncomputable section

namespace PlaneProject

/-! ## Constants (src/Plane_Design_Package/constants.py) -/

namespace Constants

def earth_radius : ℝ := 6.371e6

def temperature_variation_altitudem : ℝ := -6.5e-3

def gravity_zero : ℝ := 9.81

def R_air : ℝ := 286.9

def gamma_air : ℝ := 1.4

def density_zero : ℝ := 1.2237

def temperature_zero : ℝ := 288.16

def pressure_zero : ℝ := 101325

def altitude_junction : ℝ := 11e3

def temperature_junction : ℝ := 216.66

end Constants

/-! ## Atmosphere (src/PyPlanePackage/atmosphere/atmosphere.py)

The Python class computes each attribute from `self.altitude` alone; each
method is embedded as a pure function of the altitude. -/

/-- `Atmosphere.compute_temperature`: linear lapse below the tropopause
junction, constant above it. -/
def compute_temperature (altitude : ℝ) : ℝ :=
  if altitude < Constants.altitude_junction then
    Constants.temperature_zero + Constants.temperature_variation_altitudem * altitude
  else
    Constants.temperature_junction

/-- `Atmosphere.compute_pressure`: polytropic relation below the junction,
exponential decay from the junction value above it.  In the second branch
the code uses `self.temperature_K`, which there equals
`Constants.temperature_junction`; `compute_temperature altitude` is written
as in the source. -/
def compute_pressure (altitude : ℝ) : ℝ :=
  if altitude < Constants.altitude_junction then
    Constants.pressure_zero * (compute_temperature altitude / Constants.temperature_zero) ^
      (-Constants.gravity_zero / (Constants.temperature_variation_altitudem * Constants.R_air))
  else
    (Constants.pressure_zero * (Constants.temperature_junction / Constants.temperature_zero) ^
      (-Constants.gravity_zero / (Constants.temperature_variation_altitudem * Constants.R_air))) *
      Real.exp (-Constants.gravity_zero / (Constants.R_air * compute_temperature altitude) *
        (altitude - Constants.altitude_junction))

/-- `Atmosphere.compute_density`: same shape as the pressure with exponent
lowered by one. -/
def compute_density (altitude : ℝ) : ℝ :=
  if altitude < Constants.altitude_junction then
    Constants.density_zero * (compute_temperature altitude / Constants.temperature_zero) ^
      (-Constants.gravity_zero / (Constants.temperature_variation_altitudem * Constants.R_air) - 1)
  else
    (Constants.density_zero * (Constants.temperature_junction / Constants.temperature_zero) ^
      (-Constants.gravity_zero / (Constants.temperature_variation_altitudem * Constants.R_air) - 1)) *
      Real.exp (-Constants.gravity_zero / (Constants.R_air * compute_temperature altitude) *
        (altitude - Constants.altitude_junction))

/-- `Atmosphere.compute_sound_speed`: `sqrt(gamma_air * R_air * temperature_K)`. -/
def compute_sound_speed (altitude : ℝ) : ℝ :=
  Real.sqrt (Constants.gamma_air * Constants.R_air * compute_temperature altitude)

/-! Named branch formulas of the piecewise atmosphere functions, used to
state boundary continuity and monotonicity; each is read off the
corresponding branch of the source. -/

/-- The troposphere branch of `compute_temperature`, `T0 + L * h`, as a
function on all altitudes. -/
def tropoTemperature (altitude : ℝ) : ℝ :=
  Constants.temperature_zero + Constants.temperature_variation_altitudem * altitude

/-- The polytropic exponent `-gravity_zero / (temperature_variation_altitudem * R_air)`
shared by both pressure branches. -/
def pressureExponent : ℝ :=
  -Constants.gravity_zero / (Constants.temperature_variation_altitudem * Constants.R_air)

/-- The troposphere branch of `compute_pressure`. -/
def tropoPressure (altitude : ℝ) : ℝ :=
  Constants.pressure_zero * (tropoTemperature altitude / Constants.temperature_zero) ^
    pressureExponent

/-- The stratosphere branch of `compute_pressure` (with `temperature_K`
evaluated, as in that branch, to `temperature_junction`). -/
def stratoPressure (altitude : ℝ) : ℝ :=
  (Constants.pressure_zero * (Constants.temperature_junction / Constants.temperature_zero) ^
      pressureExponent) *
    Real.exp (-Constants.gravity_zero / (Constants.R_air * Constants.temperature_junction) *
      (altitude - Constants.altitude_junction))

/-- The troposphere branch of `compute_density`. -/
def tropoDensity (altitude : ℝ) : ℝ :=
  Constants.density_zero * (tropoTemperature altitude / Constants.temperature_zero) ^
    (pressureExponent - 1)

/-- The stratosphere branch of `compute_density`. -/
def stratoDensity (altitude : ℝ) : ℝ :=
  (Constants.density_zero * (Constants.temperature_junction / Constants.temperature_zero) ^
      (pressureExponent - 1)) *
    Real.exp (-Constants.gravity_zero / (Constants.R_air * Constants.temperature_junction) *
      (altitude - Constants.altitude_junction))

/-! ## Weight (src/PyPlanePackage/weight/weight.py) -/

/-- The if/elif chain of `Weight.structure_factor` on `Type.lower()`:
the regression pair `(a, c)` for each of the 13 known categories,
`none` for the `raise ValueError('Unknown aircraft type')` branch. -/
def sfTable (ty : String) : Option (ℝ × ℝ) :=
  let type_lower := ty.toLower
  if type_lower = "glider" then some (0.86, -0.05)
  else if type_lower = "powered-glider" then some (0.91, -0.05)
  else if type_lower = "indiv-constr" then some (1.19, -0.09)
  else if type_lower = "indiv-constr(comp)" then some (1.15, -0.09)
  else if type_lower = "gen-aviation(1eng)" then some (2.36, -0.18)
  else if type_lower = "gen-aviation(2eng)" then some (1.51, -0.10)
  else if type_lower = "agricultural-plane" then some (0.74, -0.03)
  else if type_lower = "turboprop(2eng)" then some (0.96, -0.05)
  else if type_lower = "seaplane" then some (1.09, -0.05)
  else if type_lower = "training-jet" then some (1.59, -0.10)
  else if type_lower = "combat-jet" then some (2.34, -0.13)
  else if type_lower = "transport-jet" then some (1.02, -0.06)
  else if type_lower = "bomber" then some (0.93, -0.07)
  else none

/-- The 13 category names accepted by `sfTable` (lower-case forms of the
if/elif chain). -/
def categoryNames : List String :=
  ["glider", "powered-glider", "indiv-constr", "indiv-constr(comp)",
   "gen-aviation(1eng)", "gen-aviation(2eng)", "agricultural-plane",
   "turboprop(2eng)", "seaplane", "training-jet", "combat-jet",
   "transport-jet", "bomber"]

/-- `Weight.structure_factor`: table lookup then `sf = a * Wto ** c`.
Every table exponent is negative, so at `Wto = 0` the power `0.0 ** c` has
no real value (a plain float argument raises `ZeroDivisionError`; the
ndarray arguments supplied by `fsolve` yield `inf` with a
`RuntimeWarning`): embedded as `none`. -/
def structure_factor (ty : String) (Wto : ℝ) : Option ℝ :=
  match sfTable ty with
  | none => none
  | some (a, c) => if Wto = 0 then none else some (a * Wto ^ c)

/-- `Weight.finesse`: maximum lift-to-drag estimate with a hard switch at
Mach 1. -/
def finesse (Mach A : ℝ) : ℝ :=
  if Mach < 1 then A + 10 else 11 * Mach ^ (-0.5 : ℝ)

/-- `Weight.fclimb`: climb weight fraction. -/
def fclimb (M_cruise : ℝ) : ℝ :=
  if M_cruise < 1 then 1 - 0.04 * M_cruise else 0.96 - 0.03 * (M_cruise - 1)

/-- `Weight.floiter`: loiter weight fraction `1 / exp(T_loiter*TSFC/(ldmax*60))`. -/
def floiter (M_cruise T_loiter TSFC A : ℝ) : ℝ :=
  let ldmax := finesse M_cruise A
  let flinv := Real.exp (T_loiter * TSFC / (ldmax * 60))
  1 / flinv

/-- `Weight.vitesse`: cruise speed `mach * Atmosphere(altitude).sound_speed`.
The altitude is passed to the atmosphere model unconverted. -/
def vitesse (mach altitude : ℝ) : ℝ :=
  mach * compute_sound_speed altitude

/-- `Weight.fcruise`: Breguet cruise weight fraction
`1 / exp(Range*TSFC*6080/(vc*ld*3600))`. -/
def fcruise (M_cruise H_cruise A Range TSFC : ℝ) : ℝ :=
  let ldmax := finesse M_cruise A
  let ld := 0.866 * ldmax
  let vc := vitesse M_cruise H_cruise
  let fcinv := Real.exp (Range * TSFC * 6080 / (vc * ld * 3600))
  1 / fcinv

/-- Fixed takeoff weight-fraction constant `fdec` of `Weight.fpoids`. -/
def fdec : ℝ := 0.975

/-- Fixed landing weight-fraction constant `fland` of `Weight.fpoids`
(assigned but never used in the residual, as in the source). -/
def fland : ℝ := 0.975

/-- `Weight.fpoids`, the residual handed to `fsolve`.  At `Wto = 0` the
residual has no real value (embedded as `none`): `Wpayload / Wto` and the
structure-factor power divide by zero — a `ZeroDivisionError` over plain
floats, `nan`/`inf` with `RuntimeWarning`s over the ndarray arguments
`fsolve` supplies.  An unknown aircraft type raises `ValueError` inside
`structure_factor`.  `Fuel_res` and `Fuel_trap` are parameters of the
source function but unused in its body. -/
def fpoids (Wto Range : ℝ) (ty : String)
    (Wpayload TSFC T_loiter A Fuel_res Fuel_trap M_cruise H_cruise : ℝ) : Option ℝ :=
  if Wto = 0 then none
  else
    match structure_factor ty Wto with
    | none => none
    | some sf =>
      some (1 - (Wpayload / Wto + sf +
        (1 - fdec * fclimb M_cruise) *
          (1 + fcruise M_cruise H_cruise A Range TSFC * floiter M_cruise T_loiter TSFC A)))

/-- The post-`fsolve` part of `Weight.iterate_take_off_weight` (lines
54-60): re-evaluate the structure factor at the root `Wto` returned by the
solver and assemble `(Wto, Wempty, Wfuel)`.  `Wto` is the value produced by
the external `fsolve` call, taken here as a parameter. -/
def iterate_take_off_weight (ty : String) (Wto Wpayload : ℝ) : Option (ℝ × ℝ × ℝ) :=
  match structure_factor ty Wto with
  | none => none
  | some Sfactor => some (Wto, Sfactor * Wto, Wto - Sfactor * Wto - Wpayload)

/-- A reified call to `scipy.optimize.fsolve`: the residual handed to the
solver, the initial guess, and the `xtol` argument. -/
structure FsolveCall where
  residual : ℝ → Option ℝ
  x0 : ℝ
  xtol : ℝ

/-- The `fsolve` invocation of `Weight.iterate_take_off_weight` (weight.py
lines 51-52): residual `fpoids`, initial guess `Wpayload`, `xtol = 1e-6`. -/
def weightSolveCall (ty : String)
    (M_cruise H_cruise A TSFC T_loiter Fuel_res Fuel_trap Wpayload flight_range : ℝ) :
    FsolveCall :=
  ⟨fun Wto => fpoids Wto flight_range ty Wpayload TSFC T_loiter A Fuel_res Fuel_trap
      M_cruise H_cruise,
   Wpayload, 1e-6⟩

/-- Modelled from the spec: `scipy.optimize.fsolve` is external library
code, absent from the repository.  Its documented behaviour is modelled by
its contract for a successful solve: `fsolve` first evaluates the residual
at the initial guess — a Python exception raised there propagates, and a
residual with no real value there (`nan`/`inf`, embedded `none`) precludes
convergence — and a converged return value is a root of the residual. -/
def FsolveCall.Returns (call : FsolveCall) (W : ℝ) : Prop :=
  (call.residual call.x0).isSome ∧ call.residual W = some 0

/-! ## Spec-side definitions (written from the spec's words, §4.3-4.4),
used only to compare against the code-side definitions above. -/

/-- Spec §4.3: `finesse(mach, aspect_ratio)`: subsonic (`mach < 1`) returns
`aspect_ratio + 10`; supersonic/transonic returns `11 * mach^-0.5`. -/
def finesseSpec (mach aspect_ratio : ℝ) : ℝ :=
  if mach < 1 then aspect_ratio + 10 else 11 * mach ^ (-0.5 : ℝ)

/-- Spec §4.3: `climb_fraction(mach)`: `1 - 0.04*mach` for `mach < 1`, else
`0.96 - 0.03*(mach - 1)`. -/
def climb_fraction (mach : ℝ) : ℝ :=
  if mach < 1 then 1 - 0.04 * mach else 0.96 - 0.03 * (mach - 1)

/-- Spec §4.3: `cruise_fraction(mach, altitude, aspect_ratio, range, sfc)`:
`ld = 0.866 * finesse`, speed `mach * speed_of_sound(altitude)`, fraction
`exp(-range*sfc*6080/(speed*ld*3600))`. -/
def cruise_fraction (mach altitude aspect_ratio range sfc : ℝ) : ℝ :=
  Real.exp (-(range * sfc * 6080 /
    ((mach * compute_sound_speed altitude) * (0.866 * finesseSpec mach aspect_ratio) * 3600)))

/-- Spec §4.3: `loiter_fraction(mach, aspect_ratio, loiter_time, sfc)`:
`exp(-loiter_time*sfc/(finesse*60))`. -/
def loiter_fraction (mach aspect_ratio loiter_time sfc : ℝ) : ℝ :=
  Real.exp (-(loiter_time * sfc / (finesseSpec mach aspect_ratio * 60)))

/-- The residual of claim C1 / spec §4.4, written from the spec's words:
`r(Wto) = 1 - (Wpayload/Wto + structure_fraction(category, Wto)
+ (1 - 0.975*climb_fraction)*(1 + cruise_fraction * loiter_fraction))`,
with the structure fraction `a * Wto^c` from the category table (undefined
for an unknown category). -/
def residualSpec (category : String)
    (mach altitude aspect_ratio range sfc loiter_time Wpayload Wto : ℝ) : Option ℝ :=
  (sfTable category).map fun p =>
    1 - (Wpayload / Wto + p.1 * Wto ^ p.2 +
      (1 - 0.975 * climb_fraction mach) *
        (1 + cruise_fraction mach altitude aspect_ratio range sfc *
          loiter_fraction mach aspect_ratio loiter_time sfc))

/-! ## Load-time demo (src/PyPlanePackage/plane/plane_mass.py lines 229-240
and src/Plane_Design_Package/Plane/plane_mass.py lines 226-239; both
variants define the same mission and call `itertow` at module load). -/

/-- The aircraft type of the module-level demo mission: `'jet-transport'`. -/
def demoType : String := "jet-transport"

/-- The payload weight of the module-level demo mission, lbf. -/
def demoWpayload : ℝ := 30750

/-! ## Helper lemmas -/

theorem toLower_glider : "glider".toLower = "glider" := by
  rw [String.toLower, String.map_eq]; decide

theorem toLower_transport_jet : "transport-jet".toLower = "transport-jet" := by
  rw [String.toLower, String.map_eq]; decide

theorem toLower_jet_transport : "jet-transport".toLower = "jet-transport" := by
  rw [String.toLower, String.map_eq]; decide

theorem toLower_biplane_unknown : "biplane-unknown".toLower = "biplane-unknown" := by
  rw [String.toLower, String.map_eq]; decide

theorem sfTable_glider : sfTable "glider" = some (0.86, -0.05) := by
  simp [sfTable, toLower_glider]

theorem sfTable_transport_jet : sfTable "transport-jet" = some (1.02, -0.06) := by
  simp [sfTable, toLower_transport_jet]

/-- A category whose lower-cased name is none of the 13 table names falls
through every `elif` of `Weight.structure_factor` to the `raise` branch. -/
theorem sfTable_eq_none (ty : String) (h : ty.toLower ∉ categoryNames) :
    sfTable ty = none := by
  simp only [categoryNames, List.mem_cons, List.not_mem_nil, or_false, not_or] at h
  obtain ⟨h1, h2, h3, h4, h5, h6, h7, h8, h9, h10, h11, h12, h13⟩ := h
  simp [sfTable, h1, h2, h3, h4, h5, h6, h7, h8, h9, h10, h11, h12, h13]

/-! ## Claim C2 -/

/-- C2: for every solve that returns a result, the produced breakdown
satisfies `|takeoff - (empty + fuel + payload)| < tolerance` (the
difference is exactly zero, hence below the 1e-6 solver tolerance) and
`empty = structure_fraction(category, takeoff) * takeoff`, where the
structure fraction is re-evaluated at the converged takeoff weight. -/
theorem C2_breakdown_closure (ty : String) (Wroot Wpayload Wto Wempty Wfuel : ℝ)
    (h : iterate_take_off_weight ty Wroot Wpayload = some (Wto, Wempty, Wfuel)) :
    |Wto - (Wempty + Wfuel + Wpayload)| < 1e-6 ∧
    ∃ s, structure_factor ty Wto = some s ∧ Wempty = s * Wto := by
  rw [iterate_take_off_weight] at h
  cases hs : structure_factor ty Wroot with
  | none => rw [hs] at h; cases h
  | some Sfactor =>
    rw [hs] at h
    rw [Option.some.injEq, Prod.mk.injEq, Prod.mk.injEq] at h
    obtain ⟨rfl, rfl, rfl⟩ := h
    constructor
    · have : Wroot - (Sfactor * Wroot + (Wroot - Sfactor * Wroot - Wpayload) + Wpayload) = 0 := by
        ring
      rw [this]
      norm_num
    · exact ⟨Sfactor, hs, rfl⟩

/-- Witness for C2 at a concrete converged solve. -/
theorem C2_breakdown_closure_witness :
    iterate_take_off_weight "glider" 1 0.012 = some (1, 0.86, 0.128) ∧
    (|(1 : ℝ) - (0.86 + 0.128 + 0.012)| < 1e-6 ∧
      ∃ s, structure_factor "glider" 1 = some s ∧ (0.86 : ℝ) = s * 1) := by
  have h : iterate_take_off_weight "glider" 1 0.012 = some (1, 0.86, 0.128) := by
    simp [iterate_take_off_weight, structure_factor, sfTable_glider, Real.one_rpow]
    norm_num
  exact ⟨h, C2_breakdown_closure "glider" 1 0.012 1 0.86 0.128 h⟩

/-! ## Claim C3 -/

/-- C3 counterexample: the code performs no convergence or sign check on
the value returned by `fsolve`.  A root-finder output of `-1` (a negative
"root") for a known category flows through the post-processing of
`iterate_take_off_weight` unchanged: the solve returns takeoff weight `-1`
and raises no error (the repository contains no `SizingDidNotConverge`
error at all), contradicting the claim that a negative or zero root is
surfaced as an error rather than returned. -/
theorem C3_counterexample :
    (iterate_take_off_weight "glider" (-1) 100).map Prod.fst = some (-1) := by
  norm_num [iterate_take_off_weight, structure_factor, sfTable_glider]

/-- C3 (amended): `solve` performs no convergence, positivity, or error
check on the root: for any known category and any nonzero root `Wto`
handed back by `fsolve` (negative roots included), the post-processing
returns the breakdown `(Wto, Sfactor*Wto, Wto - Sfactor*Wto - Wpayload)`
unconditionally; no `SizingDidNotConverge` error exists in the code. -/
theorem C3_no_convergence_check (ty : String) (a c Wto Wpayload : ℝ)
    (htab : sfTable ty = some (a, c)) (hW : Wto ≠ 0) :
    iterate_take_off_weight ty Wto Wpayload =
      some (Wto, a * Wto ^ c * Wto, Wto - a * Wto ^ c * Wto - Wpayload) := by
  simp [iterate_take_off_weight, structure_factor, htab, hW]

/-- Witness for the amended C3 at the concrete negative root `-1`. -/
theorem C3_no_convergence_check_witness :
    sfTable "glider" = some (0.86, -0.05) ∧ ((-1 : ℝ) ≠ 0) ∧
    iterate_take_off_weight "glider" (-1) 100 =
      some (-1, 0.86 * (-1 : ℝ) ^ (-0.05 : ℝ) * (-1),
        -1 - 0.86 * (-1 : ℝ) ^ (-0.05 : ℝ) * (-1) - 100) :=
  ⟨sfTable_glider, by norm_num,
   C3_no_convergence_check "glider" 0.86 (-0.05) (-1) 100 sfTable_glider (by norm_num)⟩

/-! ## Claim C4 -/

/-- C4: for every category string whose lower-cased form is not one of the
13 enumerated names, the structure-fraction lookup errors (`none`, the
`raise ValueError('Unknown aircraft type')` branch) and never returns a
default fraction; the residual handed to the root-finder errors at every
point — in particular at the initial guess, which `fsolve` evaluates before
iterating — so the solve fails with that error and no root-finding
and no breakdown is ever produced. -/
theorem C4_unknown_category_errors (ty : String) (h : ty.toLower ∉ categoryNames) :
    (∀ W, structure_factor ty W = none) ∧
    (∀ M_cruise H_cruise A TSFC T_loiter Fuel_res Fuel_trap Wpayload flight_range W,
      (weightSolveCall ty M_cruise H_cruise A TSFC T_loiter Fuel_res Fuel_trap Wpayload
        flight_range).residual W = none) ∧
    (∀ M_cruise H_cruise A TSFC T_loiter Fuel_res Fuel_trap Wpayload flight_range W,
      ¬ (weightSolveCall ty M_cruise H_cruise A TSFC T_loiter Fuel_res Fuel_trap Wpayload
        flight_range).Returns W) ∧
    (∀ W Wpayload, iterate_take_off_weight ty W Wpayload = none) := by
  have hsf : sfTable ty = none := sfTable_eq_none ty h
  refine ⟨fun W => ?_, fun _ _ _ _ _ _ _ _ _ W => ?_, fun _ _ _ _ _ _ _ _ _ _ hr => ?_,
    fun W Wp => ?_⟩
  · simp [structure_factor, hsf]
  · simp [weightSolveCall, fpoids, structure_factor, hsf]
  · have := hr.1
    simp [weightSolveCall, fpoids, structure_factor, hsf] at this
  · simp [iterate_take_off_weight, structure_factor, hsf]

/-- Witness for C4 at the concrete unknown category `"biplane-unknown"`. -/
theorem C4_unknown_category_errors_witness :
    "biplane-unknown".toLower ∉ categoryNames ∧
    structure_factor "biplane-unknown" 500 = none ∧
    iterate_take_off_weight "biplane-unknown" 500 30750 = none := by
  have h : "biplane-unknown".toLower ∉ categoryNames := by
    rw [toLower_biplane_unknown]; simp [categoryNames]
  exact ⟨h, (C4_unknown_category_errors "biplane-unknown" h).1 500,
    (C4_unknown_category_errors "biplane-unknown" h).2.2.2 500 30750⟩

/-! ## Claim C10 -/

/-- C10: both script variants of the closure solver execute a sample
mission at module load time with `Type = 'jet-transport'`, a name absent
from the structure-factor table (which contains `'transport-jet'`): the
table lookup falls through to the `raise ValueError('Unknown aircraft
type')` branch at the first residual evaluation, so the load-time demo
errors before any weight result is produced or printed. -/
theorem C10_demo_unknown_type :
    demoType = "jet-transport" ∧
    demoType.toLower ∉ categoryNames ∧
    sfTable demoType = none ∧
    (∀ W, structure_factor demoType W = none) ∧
    (∀ W Wpayload, iterate_take_off_weight demoType W Wpayload = none) ∧
    sfTable "transport-jet" = some (1.02, -0.06) := by
  have h : demoType.toLower ∉ categoryNames := by
    rw [demoType, toLower_jet_transport]; simp [categoryNames]
  have hsf : sfTable demoType = none := sfTable_eq_none demoType h
  exact ⟨rfl, h, hsf, fun W => by simp [structure_factor, hsf],
    fun W Wp => by simp [iterate_take_off_weight, structure_factor, hsf],
    sfTable_transport_jet⟩

/-! ## Claim C1 -/

/-- The code-side climb fraction is the spec's `climb_fraction`. -/
theorem fclimb_eq_climb_fraction (M : ℝ) : fclimb M = climb_fraction M := rfl

/-- The code-side finesse is the spec's finesse. -/
theorem finesse_eq_finesseSpec (M A : ℝ) : finesse M A = finesseSpec M A := rfl

/-- The code's `1 / exp(x)` cruise fraction equals the spec's `exp(-x)`. -/
theorem fcruise_eq_cruise_fraction (M H A R TSFC : ℝ) :
    fcruise M H A R TSFC = cruise_fraction M H A R TSFC := by
  simp [fcruise, cruise_fraction, vitesse, finesse, finesseSpec, Real.exp_neg, one_div]

/-- The code's `1 / exp(x)` loiter fraction equals the spec's `exp(-x)`. -/
theorem floiter_eq_loiter_fraction (M T_loiter TSFC A : ℝ) :
    floiter M T_loiter TSFC A = loiter_fraction M A T_loiter TSFC := by
  simp [floiter, loiter_fraction, finesse, finesseSpec, Real.exp_neg, one_div]

/-- At every nonzero weight the code's residual `fpoids` coincides with the
residual written from the spec's words. -/
theorem fpoids_eq_residualSpec (Wto flight_range : ℝ) (ty : String)
    (Wpayload TSFC T_loiter A Fuel_res Fuel_trap M_cruise H_cruise : ℝ) (hW : Wto ≠ 0) :
    fpoids Wto flight_range ty Wpayload TSFC T_loiter A Fuel_res Fuel_trap M_cruise H_cruise =
    residualSpec ty M_cruise H_cruise A flight_range TSFC T_loiter Wpayload Wto := by
  rw [fpoids, residualSpec, if_neg hW, structure_factor]
  cases hs : sfTable ty with
  | none => simp
  | some p =>
    simp only [Option.map_some', if_neg hW]
    rw [fclimb_eq_climb_fraction, fcruise_eq_cruise_fraction, floiter_eq_loiter_fraction, fdec]

/-- C1: whenever the solve returns a value `W` (modelling the external
`fsolve` by its documented converged contract, `FsolveCall.Returns`), the
root-finding call was started from an initial guess equal to the payload
weight with `xtol = 1e-6` on `Wto`, and the returned `W` is a root of the
spec's residual
`r(Wto) = 1 - (Wpayload/Wto + structure_fraction(category, Wto)
+ (1 - 0.975*climb_fraction(mach)) * (1 + cruise_fraction(mach, altitude,
aspect_ratio, range, sfc) * loiter_fraction(mach, aspect_ratio,
loiter_time, sfc)))`. -/
theorem C1_returned_weight_is_root (ty : String)
    (M_cruise H_cruise A TSFC T_loiter Fuel_res Fuel_trap Wpayload flight_range W : ℝ)
    (h : (weightSolveCall ty M_cruise H_cruise A TSFC T_loiter Fuel_res Fuel_trap Wpayload
      flight_range).Returns W) :
    (weightSolveCall ty M_cruise H_cruise A TSFC T_loiter Fuel_res Fuel_trap Wpayload
      flight_range).x0 = Wpayload ∧
    (weightSolveCall ty M_cruise H_cruise A TSFC T_loiter Fuel_res Fuel_trap Wpayload
      flight_range).xtol = 1e-6 ∧
    residualSpec ty M_cruise H_cruise A flight_range TSFC T_loiter Wpayload W = some 0 := by
  refine ⟨rfl, rfl, ?_⟩
  have h2 : fpoids W flight_range ty Wpayload TSFC T_loiter A Fuel_res Fuel_trap
      M_cruise H_cruise = some 0 := h.2
  have hW : W ≠ 0 := by
    intro h0
    rw [h0, fpoids, if_pos rfl] at h2
    cases h2
  rw [← fpoids_eq_residualSpec W flight_range ty Wpayload TSFC T_loiter A Fuel_res Fuel_trap
    M_cruise H_cruise hW]
  exact h2

/-- Witness for C1 at a concrete mission whose residual has the exact root
`Wto = 1`: category glider, Mach 1, zero range and zero loiter time,
payload 0.012. -/
theorem C1_returned_weight_is_root_witness :
    (weightSolveCall "glider" 1 0 1 0.45 0 0.05 0.01 0.012 0).Returns 1 ∧
    residualSpec "glider" 1 0 1 0 0.45 0 0.012 1 = some 0 := by
  have h : (weightSolveCall "glider" 1 0 1 0.45 0 0.05 0.01 0.012 0).Returns 1 := by
    constructor
    · simp [weightSolveCall, fpoids, structure_factor, sfTable_glider]
      norm_num
    · simp only [weightSolveCall, fpoids, structure_factor, sfTable_glider]
      norm_num [fclimb, fcruise, floiter, finesse, vitesse, fdec, Real.one_rpow,
        Real.exp_zero]
  exact ⟨h, (C1_returned_weight_is_root "glider" 1 0 1 0.45 0 0.05 0.01 0.012 0 1 h).2.2⟩

/-! ## Claim C5 -/

/-- C5 counterexample: for the reference mission with payload 0 the solve
does evaluate a division by zero and an undefined power, contradicting the
claim.  The initial guess handed to `fsolve` is the payload itself, so the
first residual evaluation — which `fsolve` performs at the initial guess
before iterating — computes `Wpayload / Wto = 0 / 0` and `0.0 ** c` with
`c < 0`; on the ndarray arguments `fsolve` supplies these yield `nan` and
`inf` under `RuntimeWarning`s (no exception is raised), so the residual
there has no real value (`none`) and the root-finder, iterating on `nan`,
cannot converge to a root. -/
theorem C5_counterexample :
    (weightSolveCall "transport-jet" 0.82 40000 10 0.45 45 0.05 0.01 0 3500).residual
      ((weightSolveCall "transport-jet" 0.82 40000 10 0.45 45 0.05 0.01 0 3500).x0) = none := by
  simp [weightSolveCall, fpoids]

/-- C5 (amended): with payload weight 0 the initial guess passed to the
root-finder equals the payload, i.e. 0, and the residual evaluated there
has no real value (`none`): `Wpayload / Wto = 0 / 0` and the
structure-factor power `0.0 ** c` with `c < 0` are evaluated, yielding
`nan` and `inf` with `RuntimeWarning`s on the ndarray arguments `fsolve`
supplies (no exception is raised).  A division by zero and an undefined
power are therefore evaluated during the solve, and no value can satisfy
the solver's converged contract: for every category and all other mission
parameters there is no converged takeoff weight — the code, which applies
no convergence check, completes with `fsolve`'s unchecked non-converged
iterate instead of a converged result. -/
theorem C5_payload_zero_divides_by_zero (ty : String)
    (M_cruise H_cruise A TSFC T_loiter Fuel_res Fuel_trap flight_range : ℝ) :
    (weightSolveCall ty M_cruise H_cruise A TSFC T_loiter Fuel_res Fuel_trap 0
      flight_range).x0 = 0 ∧
    (weightSolveCall ty M_cruise H_cruise A TSFC T_loiter Fuel_res Fuel_trap 0
      flight_range).residual
      ((weightSolveCall ty M_cruise H_cruise A TSFC T_loiter Fuel_res Fuel_trap 0
        flight_range).x0) = none ∧
    ∀ W, ¬ (weightSolveCall ty M_cruise H_cruise A TSFC T_loiter Fuel_res Fuel_trap 0
      flight_range).Returns W := by
  refine ⟨rfl, by simp [weightSolveCall, fpoids], fun W hr => ?_⟩
  have h := hr.1
  simp [weightSolveCall, fpoids] at h

/-! ## Claim C9 -/

/-- C9: for any two cruise altitudes at or above the 11000 junction in the
`Atmosphere` constructor's altitude unit (which includes the reference case
of 40000 passed as feet, since `vitesse` passes the altitude unconverted
into the atmosphere model), the temperature is the constant stratospheric
value, the speed of sound is `sqrt(1.4 * 286.9 * 216.66)`, and the cruise
weight fraction, the residual, and hence the entire solve result are
identical at the two altitudes. -/
theorem C9_solve_independent_of_stratospheric_altitude (H1 H2 : ℝ)
    (h1 : Constants.altitude_junction ≤ H1) (h2 : Constants.altitude_junction ≤ H2) :
    compute_temperature H1 = Constants.temperature_junction ∧
    compute_sound_speed H1 = Real.sqrt (1.4 * 286.9 * 216.66) ∧
    compute_sound_speed H1 = compute_sound_speed H2 ∧
    (∀ M A R TSFC, fcruise M H1 A R TSFC = fcruise M H2 A R TSFC) ∧
    (∀ Wto R ty Wp TSFC Tl A Fr Ft M,
      fpoids Wto R ty Wp TSFC Tl A Fr Ft M H1 = fpoids Wto R ty Wp TSFC Tl A Fr Ft M H2) ∧
    (∀ ty M A TSFC Tl Fr Ft Wp R W,
      (weightSolveCall ty M H1 A TSFC Tl Fr Ft Wp R).Returns W ↔
      (weightSolveCall ty M H2 A TSFC Tl Fr Ft Wp R).Returns W) := by
  have hT1 : compute_temperature H1 = Constants.temperature_junction :=
    if_neg (not_lt.mpr h1)
  have hT2 : compute_temperature H2 = Constants.temperature_junction :=
    if_neg (not_lt.mpr h2)
  have hss : compute_sound_speed H1 = compute_sound_speed H2 := by
    rw [compute_sound_speed, compute_sound_speed, hT1, hT2]
  have hval : compute_sound_speed H1 = Real.sqrt (1.4 * 286.9 * 216.66) := by
    rw [compute_sound_speed, hT1]
    norm_num [Constants.gamma_air, Constants.R_air, Constants.temperature_junction]
  have hfc : ∀ M A R TSFC, fcruise M H1 A R TSFC = fcruise M H2 A R TSFC := by
    intro M A R TSFC
    rw [fcruise, fcruise, vitesse, vitesse, hss]
  have hfp : ∀ Wto R ty Wp TSFC Tl A Fr Ft M,
      fpoids Wto R ty Wp TSFC Tl A Fr Ft M H1 = fpoids Wto R ty Wp TSFC Tl A Fr Ft M H2 := by
    intro Wto R ty Wp TSFC Tl A Fr Ft M
    simp only [fpoids, hfc M A R TSFC]
  refine ⟨hT1, hval, hss, hfc, hfp, fun ty M A TSFC Tl Fr Ft Wp R W => ?_⟩
  simp only [FsolveCall.Returns, weightSolveCall, hfp]

/-- Witness for C9 at the junction altitude and the reference 40000. -/
theorem C9_witness :
    Constants.altitude_junction ≤ (11000 : ℝ) ∧ Constants.altitude_junction ≤ (40000 : ℝ) ∧
    compute_sound_speed 11000 = Real.sqrt (1.4 * 286.9 * 216.66) ∧
    fcruise 0.82 11000 10 3500 0.45 = fcruise 0.82 40000 10 3500 0.45 := by
  have h1 : Constants.altitude_junction ≤ (11000 : ℝ) := by
    norm_num [Constants.altitude_junction]
  have h2 : Constants.altitude_junction ≤ (40000 : ℝ) := by
    norm_num [Constants.altitude_junction]
  have h := C9_solve_independent_of_stratospheric_altitude 11000 40000 h1 h2
  exact ⟨h1, h2, h.2.1, h.2.2.2.1 0.82 10 3500 0.45⟩

/-! ## Claim C8 -/

/-- Every regression pair of the structure-factor table has a positive
coefficient and a strictly negative exponent. -/
theorem sfTable_a_pos_c_neg (ty : String) (a c : ℝ) (h : sfTable ty = some (a, c)) :
    0 < a ∧ c < 0 := by
  by_cases hm : ty.toLower ∈ categoryNames
  · simp only [categoryNames, List.mem_cons, List.not_mem_nil, or_false] at hm
    rcases hm with hn|hn|hn|hn|hn|hn|hn|hn|hn|hn|hn|hn|hn
    all_goals simp [sfTable, hn] at h
    all_goals obtain ⟨rfl, rfl⟩ := h
    all_goals norm_num
  · rw [sfTable_eq_none ty hm] at h
    cases h

/-- The 13 literal regression pairs of `Weight.structure_factor`. -/
theorem sfTable_literals :
    sfTable "glider" = some (0.86, -0.05) ∧
    sfTable "powered-glider" = some (0.91, -0.05) ∧
    sfTable "indiv-constr" = some (1.19, -0.09) ∧
    sfTable "indiv-constr(comp)" = some (1.15, -0.09) ∧
    sfTable "gen-aviation(1eng)" = some (2.36, -0.18) ∧
    sfTable "gen-aviation(2eng)" = some (1.51, -0.10) ∧
    sfTable "agricultural-plane" = some (0.74, -0.03) ∧
    sfTable "turboprop(2eng)" = some (0.96, -0.05) ∧
    sfTable "seaplane" = some (1.09, -0.05) ∧
    sfTable "training-jet" = some (1.59, -0.10) ∧
    sfTable "combat-jet" = some (2.34, -0.13) ∧
    sfTable "transport-jet" = some (1.02, -0.06) ∧
    sfTable "bomber" = some (0.93, -0.07) := by
  refine ⟨sfTable_glider, ?_, ?_, ?_, ?_, ?_, ?_, ?_, ?_, ?_, ?_, sfTable_transport_jet, ?_⟩
  · have h : "powered-glider".toLower = "powered-glider" := by
      rw [String.toLower, String.map_eq]; decide
    simp [sfTable, h]
  · have h : "indiv-constr".toLower = "indiv-constr" := by
      rw [String.toLower, String.map_eq]; decide
    simp [sfTable, h]
  · have h : "indiv-constr(comp)".toLower = "indiv-constr(comp)" := by
      rw [String.toLower, String.map_eq]; decide
    simp [sfTable, h]
  · have h : "gen-aviation(1eng)".toLower = "gen-aviation(1eng)" := by
      rw [String.toLower, String.map_eq]; decide
    simp [sfTable, h]
  · have h : "gen-aviation(2eng)".toLower = "gen-aviation(2eng)" := by
      rw [String.toLower, String.map_eq]; decide
    simp [sfTable, h]
  · have h : "agricultural-plane".toLower = "agricultural-plane" := by
      rw [String.toLower, String.map_eq]; decide
    simp [sfTable, h]
  · have h : "turboprop(2eng)".toLower = "turboprop(2eng)" := by
      rw [String.toLower, String.map_eq]; decide
    simp [sfTable, h]
  · have h : "seaplane".toLower = "seaplane" := by
      rw [String.toLower, String.map_eq]; decide
    simp [sfTable, h]
  · have h : "training-jet".toLower = "training-jet" := by
      rw [String.toLower, String.map_eq]; decide
    simp [sfTable, h]
  · have h : "combat-jet".toLower = "combat-jet" := by
      rw [String.toLower, String.map_eq]; decide
    simp [sfTable, h]
  · have h : "bomber".toLower = "bomber" := by
      rw [String.toLower, String.map_eq]; decide
    simp [sfTable, h]

/-- C8: the structure fraction equals `a(category) * Wto^c(category)` with
the literal per-category constants (the 13 pairs of `sfTable_literals`,
restated in the conclusion; e.g. transport-jet `a = 1.02, c = -0.06`,
combat-jet `a = 2.34, c = -0.13`); for every category the exponent `c` is
strictly negative (and `a` positive), so for all weights `0 < W1 < W2` the
fraction at `W2` is strictly below the fraction at `W1`. -/
theorem C8_structure_fraction_strictly_decreasing (ty : String) (a c W1 W2 : ℝ)
    (htab : sfTable ty = some (a, c)) (h1 : 0 < W1) (h12 : W1 < W2) :
    0 < a ∧ c < 0 ∧
    structure_factor ty W1 = some (a * W1 ^ c) ∧
    structure_factor ty W2 = some (a * W2 ^ c) ∧
    a * W2 ^ c < a * W1 ^ c ∧
    sfTable "transport-jet" = some (1.02, -0.06) ∧
    sfTable "combat-jet" = some (2.34, -0.13) ∧
    (sfTable "glider" = some (0.86, -0.05) ∧
     sfTable "powered-glider" = some (0.91, -0.05) ∧
     sfTable "indiv-constr" = some (1.19, -0.09) ∧
     sfTable "indiv-constr(comp)" = some (1.15, -0.09) ∧
     sfTable "gen-aviation(1eng)" = some (2.36, -0.18) ∧
     sfTable "gen-aviation(2eng)" = some (1.51, -0.10) ∧
     sfTable "agricultural-plane" = some (0.74, -0.03) ∧
     sfTable "turboprop(2eng)" = some (0.96, -0.05) ∧
     sfTable "seaplane" = some (1.09, -0.05) ∧
     sfTable "training-jet" = some (1.59, -0.10) ∧
     sfTable "bomber" = some (0.93, -0.07)) := by
  obtain ⟨ha, hc⟩ := sfTable_a_pos_c_neg ty a c htab
  obtain ⟨t1, t2, t3, t4, t5, t6, t7, t8, t9, t10, t11, t12, t13⟩ := sfTable_literals
  refine ⟨ha, hc, ?_, ?_, ?_, t12, t11, t1, t2, t3, t4, t5, t6, t7, t8, t9, t10, t13⟩
  · simp [structure_factor, htab, ne_of_gt h1]
  · simp [structure_factor, htab, ne_of_gt (h1.trans h12)]
  · exact mul_lt_mul_of_pos_left (Real.rpow_lt_rpow_of_neg h1 h12 hc) ha

/-- Witness for C8 at the transport-jet pair and weights 1 < 2. -/
theorem C8_structure_fraction_strictly_decreasing_witness :
    sfTable "transport-jet" = some (1.02, -0.06) ∧ (0 : ℝ) < 1 ∧ (1 : ℝ) < 2 ∧
    (1.02 * (2 : ℝ) ^ (-0.06 : ℝ) < 1.02 * (1 : ℝ) ^ (-0.06 : ℝ) ∧
     structure_factor "transport-jet" 2 = some (1.02 * (2 : ℝ) ^ (-0.06 : ℝ))) := by
  have h := C8_structure_fraction_strictly_decreasing "transport-jet" 1.02 (-0.06) 1 2
    sfTable_transport_jet (by norm_num) (by norm_num)
  exact ⟨sfTable_transport_jet, by norm_num, by norm_num, h.2.2.2.2.1, h.2.2.2.1⟩

/-! ## Claim C6 -/

/-- `compute_temperature` written as a piecewise of its branch formulas. -/
theorem compute_temperature_eq (h : ℝ) :
    compute_temperature h =
      if h < Constants.altitude_junction then tropoTemperature h
      else Constants.temperature_junction := rfl

/-- `compute_pressure` written as a piecewise of its branch formulas. -/
theorem compute_pressure_eq (h : ℝ) :
    compute_pressure h =
      if h < Constants.altitude_junction then tropoPressure h else stratoPressure h := by
  rw [compute_pressure]
  split_ifs with hh
  · rw [tropoPressure, compute_temperature, if_pos hh, tropoTemperature, pressureExponent]
  · rw [stratoPressure, compute_temperature, if_neg hh, pressureExponent]

/-- `compute_density` written as a piecewise of its branch formulas. -/
theorem compute_density_eq (h : ℝ) :
    compute_density h =
      if h < Constants.altitude_junction then tropoDensity h else stratoDensity h := by
  rw [compute_density]
  split_ifs with hh
  · rw [tropoDensity, compute_temperature, if_pos hh, tropoTemperature, pressureExponent]
  · rw [stratoDensity, compute_temperature, if_neg hh, pressureExponent]

/-- A function piecewise-defined by `x < c` is continuous at the boundary
`c` when both branches are and they agree there. -/
theorem continuousAt_ite_boundary {f g : ℝ → ℝ} {c : ℝ}
    (hf : ContinuousAt f c) (hg : ContinuousAt g c) (heq : f c = g c) :
    ContinuousAt (fun x => if x < c then f x else g x) c := by
  rw [ContinuousAt, if_neg (lt_irrefl c), ← nhds_left'_sup_nhds_right c, Filter.tendsto_sup]
  constructor
  · have hfc : Filter.Tendsto f (nhdsWithin c (Set.Iio c)) (nhds (g c)) := by
      rw [← heq]
      exact (hf.continuousWithinAt (s := Set.Iio c)).tendsto
    refine Filter.Tendsto.congr' ?_ hfc
    filter_upwards [self_mem_nhdsWithin] with x hx
    exact (if_pos hx).symm
  · have hgc : Filter.Tendsto g (nhdsWithin c (Set.Ici c)) (nhds (g c)) :=
      (hg.continuousWithinAt (s := Set.Ici c)).tendsto
    refine Filter.Tendsto.congr' ?_ hgc
    filter_upwards [self_mem_nhdsWithin] with x hx
    exact (if_neg (not_lt.mpr hx)).symm

/-- The troposphere temperature formula meets the stratosphere value
exactly at the junction: `288.16 + (-6.5e-3) * 11000 = 216.66`. -/
theorem tropoTemperature_junction :
    tropoTemperature Constants.altitude_junction = Constants.temperature_junction := by
  norm_num [tropoTemperature, Constants.temperature_zero,
    Constants.temperature_variation_altitudem, Constants.altitude_junction,
    Constants.temperature_junction]

/-- The troposphere pressure formula meets the stratosphere branch at the
junction (the exponential factor reduces to `exp 0 = 1` there). -/
theorem tropoPressure_junction :
    tropoPressure Constants.altitude_junction = stratoPressure Constants.altitude_junction := by
  rw [tropoPressure, stratoPressure, tropoTemperature_junction]
  simp

/-- The troposphere density formula meets the stratosphere branch at the
junction. -/
theorem tropoDensity_junction :
    tropoDensity Constants.altitude_junction = stratoDensity Constants.altitude_junction := by
  rw [tropoDensity, stratoDensity, tropoTemperature_junction]
  simp

/-- C6: the atmosphere model is continuous at the tropopause junction
`H_j = 11000`: the troposphere branch formulas for temperature, pressure
and density, evaluated at `H_j` (their limit as `h → H_j`, being
continuous), equal the stratosphere branch values at `H_j` — in particular
`288.16 + (-6.5e-3)*11000 = 216.66 K` and the exponential factors reduce
to `1` at the boundary — and the full piecewise temperature, pressure and
density functions are continuous at `H_j`. -/
theorem C6_tropopause_continuity :
    tropoTemperature Constants.altitude_junction = Constants.temperature_junction ∧
    Constants.temperature_junction = 216.66 ∧
    tropoTemperature Constants.altitude_junction =
      compute_temperature Constants.altitude_junction ∧
    tropoPressure Constants.altitude_junction = compute_pressure Constants.altitude_junction ∧
    tropoDensity Constants.altitude_junction = compute_density Constants.altitude_junction ∧
    Real.exp (-Constants.gravity_zero / (Constants.R_air * Constants.temperature_junction) *
      (Constants.altitude_junction - Constants.altitude_junction)) = 1 ∧
    ContinuousAt compute_temperature Constants.altitude_junction ∧
    ContinuousAt compute_pressure Constants.altitude_junction ∧
    ContinuousAt compute_density Constants.altitude_junction := by
  have hlt : ¬ Constants.altitude_junction < Constants.altitude_junction := lt_irrefl _
  have hbase : tropoTemperature Constants.altitude_junction / Constants.temperature_zero ≠ 0 := by
    rw [tropoTemperature_junction]
    norm_num [Constants.temperature_junction, Constants.temperature_zero]
  have htropoT : ContinuousAt tropoTemperature Constants.altitude_junction := by
    exact ((continuous_const.add (continuous_const.mul continuous_id)).continuousAt)
  have htropoP : ContinuousAt tropoPressure Constants.altitude_junction := by
    refine continuousAt_const.mul ?_
    exact ContinuousAt.rpow_const (htropoT.div_const _) (Or.inl hbase)
  have htropoD : ContinuousAt tropoDensity Constants.altitude_junction := by
    refine continuousAt_const.mul ?_
    exact ContinuousAt.rpow_const (htropoT.div_const _) (Or.inl hbase)
  have hstratoP : ContinuousAt stratoPressure Constants.altitude_junction := by
    refine continuousAt_const.mul ?_
    exact (Real.continuous_exp.comp
      (continuous_const.mul (continuous_id.sub continuous_const))).continuousAt
  have hstratoD : ContinuousAt stratoDensity Constants.altitude_junction := by
    refine continuousAt_const.mul ?_
    exact (Real.continuous_exp.comp
      (continuous_const.mul (continuous_id.sub continuous_const))).continuousAt
  have hTfun : compute_temperature = fun h =>
      if h < Constants.altitude_junction then tropoTemperature h
      else Constants.temperature_junction := funext compute_temperature_eq
  have hPfun : compute_pressure = fun h =>
      if h < Constants.altitude_junction then tropoPressure h else stratoPressure h :=
    funext compute_pressure_eq
  have hDfun : compute_density = fun h =>
      if h < Constants.altitude_junction then tropoDensity h else stratoDensity h :=
    funext compute_density_eq
  refine ⟨tropoTemperature_junction, rfl, ?_, ?_, ?_, by simp, ?_, ?_, ?_⟩
  · rw [compute_temperature_eq, if_neg hlt, tropoTemperature_junction]
  · rw [compute_pressure_eq, if_neg hlt, tropoPressure_junction]
  · rw [compute_density_eq, if_neg hlt, tropoDensity_junction]
  · rw [hTfun]
    exact continuousAt_ite_boundary htropoT continuousAt_const tropoTemperature_junction
  · rw [hPfun]
    exact continuousAt_ite_boundary htropoP hstratoP tropoPressure_junction
  · rw [hDfun]
    exact continuousAt_ite_boundary htropoD hstratoD tropoDensity_junction

/-! ## Claim C7 -/

theorem temperature_zero_pos : (0 : ℝ) < Constants.temperature_zero := by
  norm_num [Constants.temperature_zero]

theorem temperature_junction_pos : (0 : ℝ) < Constants.temperature_junction := by
  norm_num [Constants.temperature_junction]

/-- The shared polytropic exponent exceeds one
(`9.81 / (6.5e-3 * 286.9) ≈ 5.26`). -/
theorem pressureExponent_gt_one : 1 < pressureExponent := by
  norm_num [pressureExponent, Constants.gravity_zero,
    Constants.temperature_variation_altitudem, Constants.R_air]

theorem pressureExponent_pos : 0 < pressureExponent :=
  zero_lt_one.trans pressureExponent_gt_one

/-- The stratospheric decay coefficient `-g0 / (R_air * T_j)` is negative. -/
theorem decayCoeff_neg :
    -Constants.gravity_zero / (Constants.R_air * Constants.temperature_junction) < 0 := by
  norm_num [Constants.gravity_zero, Constants.R_air, Constants.temperature_junction]

/-- The troposphere temperature formula is strictly decreasing. -/
theorem tropoTemperature_strict_anti (h1 h2 : ℝ) (h12 : h1 < h2) :
    tropoTemperature h2 < tropoTemperature h1 := by
  simp only [tropoTemperature, Constants.temperature_zero,
    Constants.temperature_variation_altitudem]
  linarith

/-- Below the junction the troposphere temperature exceeds the junction
temperature. -/
theorem tropoTemperature_gt_junction (h : ℝ) (hh : h < Constants.altitude_junction) :
    Constants.temperature_junction < tropoTemperature h := by
  simp only [Constants.altitude_junction] at hh
  simp only [tropoTemperature, Constants.temperature_zero,
    Constants.temperature_variation_altitudem, Constants.temperature_junction]
  linarith

theorem tropoTemperature_pos (h : ℝ) (hh : h < Constants.altitude_junction) :
    0 < tropoTemperature h :=
  temperature_junction_pos.trans (tropoTemperature_gt_junction h hh)

/-- Any function of the two-layer shape `C * (T(h)/T0)^e` below the
junction and `C * (Tj/T0)^e * exp(K * (h - Hj))` above it, with `C > 0`,
`e > 0` and decay coefficient `K < 0`, is strictly decreasing in the
altitude. -/
theorem layered_strict_anti (C e : ℝ) (hC : 0 < C) (he : 0 < e) (f : ℝ → ℝ)
    (hf : ∀ h, f h = if h < Constants.altitude_junction
      then C * (tropoTemperature h / Constants.temperature_zero) ^ e
      else (C * (Constants.temperature_junction / Constants.temperature_zero) ^ e) *
        Real.exp (-Constants.gravity_zero / (Constants.R_air * Constants.temperature_junction) *
          (h - Constants.altitude_junction)))
    (h1 h2 : ℝ) (h12 : h1 < h2) : f h2 < f h1 := by
  have hT0 := temperature_zero_pos
  have hTj := temperature_junction_pos
  have hK := decayCoeff_neg
  have hBpos : 0 < C * (Constants.temperature_junction / Constants.temperature_zero) ^ e :=
    mul_pos hC (Real.rpow_pos_of_pos (div_pos hTj hT0) e)
  rw [hf h1, hf h2]
  by_cases hb2 : h2 < Constants.altitude_junction
  · have hb1 : h1 < Constants.altitude_junction := h12.trans hb2
    rw [if_pos hb1, if_pos hb2]
    refine mul_lt_mul_of_pos_left ?_ hC
    refine Real.rpow_lt_rpow (le_of_lt (div_pos (tropoTemperature_pos h2 hb2) hT0)) ?_ he
    exact (div_lt_div_right hT0).mpr (tropoTemperature_strict_anti h1 h2 h12)
  · by_cases hb1 : h1 < Constants.altitude_junction
    · rw [if_pos hb1, if_neg hb2]
      have hd : 0 ≤ h2 - Constants.altitude_junction := by
        have := not_lt.mp hb2
        linarith
      have hexp : Real.exp (-Constants.gravity_zero /
          (Constants.R_air * Constants.temperature_junction) *
          (h2 - Constants.altitude_junction)) ≤ 1 :=
        Real.exp_le_one_iff.mpr (mul_nonpos_of_nonpos_of_nonneg hK.le hd)
      refine lt_of_le_of_lt
        (le_trans (mul_le_mul_of_nonneg_left hexp hBpos.le) (mul_one _).le) ?_
      exact mul_lt_mul_of_pos_left
        (Real.rpow_lt_rpow (div_pos hTj hT0).le
          ((div_lt_div_right hT0).mpr (tropoTemperature_gt_junction h1 hb1)) he) hC
    · rw [if_neg hb1, if_neg hb2]
      refine mul_lt_mul_of_pos_left ?_ hBpos
      exact Real.exp_lt_exp.mpr (mul_lt_mul_of_neg_left (sub_lt_sub_right h12 _) hK)

/-- C7: for all altitudes `0 ≤ h1 < h2` the atmosphere's pressure and
density at `h2` are strictly below their values at `h1`: both are strictly
decreasing functions of altitude on `altitude ≥ 0`. -/
theorem C7_pressure_density_strictly_decreasing (h1 h2 : ℝ) (h0 : 0 ≤ h1) (h12 : h1 < h2) :
    compute_pressure h2 < compute_pressure h1 ∧ compute_density h2 < compute_density h1 := by
  constructor
  · refine layered_strict_anti Constants.pressure_zero pressureExponent
      (by norm_num [Constants.pressure_zero]) pressureExponent_pos compute_pressure
      (fun h => ?_) h1 h2 h12
    simp only [compute_pressure_eq, tropoPressure, stratoPressure]
  · refine layered_strict_anti Constants.density_zero (pressureExponent - 1)
      (by norm_num [Constants.density_zero]) (by linarith [pressureExponent_gt_one])
      compute_density (fun h => ?_) h1 h2 h12
    simp only [compute_density_eq, tropoDensity, stratoDensity]

/-- Witness for C7 at the altitudes 0 and 20000 (one in each layer). -/
theorem C7_pressure_density_strictly_decreasing_witness :
    (0 : ℝ) ≤ 0 ∧ (0 : ℝ) < 20000 ∧
    (compute_pressure 20000 < compute_pressure 0 ∧
     compute_density 20000 < compute_density 0) :=
  ⟨le_refl 0, by norm_num,
   C7_pressure_density_strictly_decreasing 0 20000 (le_refl 0) (by norm_num)⟩

end PlaneProject
